import Mathlib

set_option autoImplicit false
set_option maxRecDepth 100000

/-!
Shallow embedding of `src/python/function_app.py` from the
cosmos-embeddings-generator repository.

The program watches a document store's change feed; for each delivered
document snapshot it decides (via a content hash over the designated text
property) whether the document is new or modified, and if so requests a
vector embedding for that property, attaches the vector and the hash to the
document, and emits it to the output binding.

Python dictionaries are modelled as insertion-ordered association lists
(`Doc`); exceptions (`KeyError` from a missing key, embedding-service
failures propagating out of the OpenAI client call) are modelled with
`Option`, `none` standing for an uncaught exception.  In-place mutation of a
dictionary (`dict.pop` inside `cleanse_document_properties`) is modelled by
returning the mutated dictionary alongside the ordinary result.
-/

namespace CosmosEmbed

/-! ### SHA-256

The Python code calls `hashlib.sha256(property.encode()).hexdigest()`.
`hashlib.sha256` is the standard FIPS 180-4 SHA-256 function and
`str.encode()` is UTF-8 encoding; both are implemented here executably so
that hash values can be evaluated on concrete inputs. -/

/-- Truncate to a 32-bit word, as every SHA-256 word operation does. -/
def w32 (n : Nat) : Nat := n % 4294967296

/-- Rotate a 32-bit word right by `b` bits. -/
def rotr (b n : Nat) : Nat := w32 ((n >>> b) ||| (n <<< (32 - b)))

def bigSigma0 (x : Nat) : Nat := rotr 2 x ^^^ rotr 13 x ^^^ rotr 22 x

def bigSigma1 (x : Nat) : Nat := rotr 6 x ^^^ rotr 11 x ^^^ rotr 25 x

def smallSigma0 (x : Nat) : Nat := rotr 7 x ^^^ rotr 18 x ^^^ (x >>> 3)

def smallSigma1 (x : Nat) : Nat := rotr 17 x ^^^ rotr 19 x ^^^ (x >>> 10)

def chFn (x y z : Nat) : Nat := (x &&& y) ^^^ ((x ^^^ 0xffffffff) &&& z)

def majFn (x y z : Nat) : Nat := (x &&& y) ^^^ (x &&& z) ^^^ (y &&& z)

/-- The 64 SHA-256 round constants (FIPS 180-4 §4.2.2), in decimal. -/
def kConstants : List Nat :=
  [1116352408, 1899447441, 3049323471, 3921009573, 961987163, 1508970993, 2453635748, 2870763221,
   3624381080, 310598401, 607225278, 1426881987, 1925078388, 2162078206, 2614888103, 3248222580,
   3835390401, 4022224774, 264347078, 604807628, 770255983, 1249150122, 1555081692, 1996064986,
   2554220882, 2821834349, 2952996808, 3210313671, 3336571891, 3584528711, 113926993, 338241895,
   666307205, 773529912, 1294757372, 1396182291, 1695183700, 1986661051, 2177026350, 2456956037,
   2730485921, 2820302411, 3259730800, 3345764771, 3516065817, 3600352804, 4094571909, 275423344,
   430227734, 506948616, 659060556, 883997877, 958139571, 1322822218, 1537002063, 1747873779,
   1955562222, 2024104815, 2227730452, 2361852424, 2428436474, 2756734187, 3204031479, 3329325298]

/-- Working state of the SHA-256 compression function: eight 32-bit words. -/
structure SHAState where
  a : Nat
  b : Nat
  c : Nat
  d : Nat
  e : Nat
  f : Nat
  g : Nat
  hh : Nat
  deriving Repr, DecidableEq

/-- Initial hash value (FIPS 180-4 §5.3.3), in decimal. -/
def shaInit : SHAState :=
  ⟨1779033703, 3144134277, 1013904242, 2773480762, 1359893119, 2600822924, 528734635, 1541459225⟩

/-- Group a byte list into big-endian 32-bit words. -/
def bytesToWords : List Nat → List Nat
  | b0 :: b1 :: b2 :: b3 :: rest =>
      (((b0 * 256 + b1) * 256 + b2) * 256 + b3) :: bytesToWords rest
  | _ => []

/-- Extend the 16 block words to the 64-entry message schedule. -/
def messageSchedule (ws : Array Nat) : Array Nat :=
  (List.range 48).foldl
    (fun w i =>
      w.push (w32 (smallSigma1 (w.getD (i + 14) 0) + w.getD (i + 9) 0 +
                   smallSigma0 (w.getD (i + 1) 0) + w.getD i 0)))
    ws

/-- One round of the compression function. -/
def shaRound (s : SHAState) (kw : Nat × Nat) : SHAState :=
  let t1 := w32 (s.hh + bigSigma1 s.e + chFn s.e s.f s.g + kw.1 + kw.2)
  let t2 := w32 (bigSigma0 s.a + majFn s.a s.b s.c)
  ⟨w32 (t1 + t2), s.a, s.b, s.c, w32 (s.d + t1), s.e, s.f, s.g⟩

/-- Process one 64-byte block. -/
def compressBlock (s : SHAState) (block : List Nat) : SHAState :=
  let w := messageSchedule (bytesToWords block).toArray
  let t := (kConstants.zip w.toList).foldl shaRound s
  ⟨w32 (s.a + t.a), w32 (s.b + t.b), w32 (s.c + t.c), w32 (s.d + t.d),
   w32 (s.e + t.e), w32 (s.f + t.f), w32 (s.g + t.g), w32 (s.hh + t.hh)⟩

/-- Split a byte list into successive 64-byte chunks; structural recursion on
a fuel argument so that the kernel can evaluate it.  Each step consumes at
least one list element, so `l.length` fuel always suffices. -/
def toBlocksFuel : Nat → List Nat → List (List Nat)
  | 0, _ => []
  | _, [] => []
  | n + 1, x :: rest => ((x :: rest).take 64) :: toBlocksFuel n (rest.drop 63)

/-- Split a byte list into successive 64-byte chunks. -/
def toBlocks (l : List Nat) : List (List Nat) := toBlocksFuel l.length l

/-- Big-endian 8-byte encoding of the bit length, for the padding tail. -/
def lengthBytes (bits : Nat) : List Nat :=
  [(bits >>> 56) % 256, (bits >>> 48) % 256, (bits >>> 40) % 256, (bits >>> 32) % 256,
   (bits >>> 24) % 256, (bits >>> 16) % 256, (bits >>> 8) % 256, bits % 256]

/-- SHA-256 padding: append `0x80`, zeros to 56 mod 64, then the bit length. -/
def padMessage (m : List Nat) : List Nat :=
  let zeros := (120 - ((m.length + 1) % 64)) % 64
  m ++ 128 :: (List.replicate zeros 0 ++ lengthBytes (8 * m.length))

/-- Big-endian bytes of one 32-bit word. -/
def wordToBytes (w : Nat) : List Nat :=
  [(w >>> 24) % 256, (w >>> 16) % 256, (w >>> 8) % 256, w % 256]

/-- SHA-256 digest (32 bytes) of a byte list. -/
def sha256Bytes (m : List Nat) : List Nat :=
  let fin := (toBlocks (padMessage m)).foldl compressBlock shaInit
  wordToBytes fin.a ++ wordToBytes fin.b ++ wordToBytes fin.c ++ wordToBytes fin.d ++
  wordToBytes fin.e ++ wordToBytes fin.f ++ wordToBytes fin.g ++ wordToBytes fin.hh

/-- The sixteen lowercase hexadecimal digit characters. -/
def hexChars : List Char := "0123456789abcdef".data

def hexDigit (n : Nat) : Char := hexChars.getD n '0'

def byteToHex (b : Nat) : List Char := [hexDigit (b / 16), hexDigit (b % 16)]

/-- Python's `hexdigest()`: the digest bytes as lowercase hexadecimal. -/
def hexdigest (bs : List Nat) : String := String.mk ((bs.map byteToHex).flatten)

/-- UTF-8 encoding of one character, as Python's `str.encode()` does. -/
def utf8EncodeChar (c : Char) : List Nat :=
  let n := c.toNat
  if n < 128 then [n]
  else if n < 2048 then [192 + n / 64, 128 + n % 64]
  else if n < 65536 then [224 + n / 4096, 128 + (n / 64) % 64, 128 + n % 64]
  else [240 + n / 262144, 128 + (n / 4096) % 64, 128 + (n / 64) % 64, 128 + n % 64]

/-- UTF-8 bytes of a string (Python `s.encode()`). -/
def utf8Bytes (s : String) : List Nat := (s.data.map utf8EncodeChar).flatten

/-- The composite `hashlib.sha256(s.encode()).hexdigest()`. -/
def sha256Hex (s : String) : String := hexdigest (sha256Bytes (utf8Bytes s))

/-! ### JSON documents (Python dicts)

A document snapshot, as produced by `document.to_dict()`, is an
insertion-ordered mapping from string keys to JSON values. -/

/-- JSON values as far as this program distinguishes them.  The code reads
string values (the text property via `property.encode()`, the stored hash
via `!=` against a string) and writes the numeric array returned by the
embedding service; every other value is copied around opaquely, so numeric
arrays (`arr`) for embedding vectors together with the scalar kinds cover
all behaviour the claims quantify over. -/
inductive JsonValue where
  | str (s : String)
  | num (n : Int)
  | boolean (b : Bool)
  | null
  | arr (elems : List Int)
  deriving Repr, DecidableEq

/-- A Python `dict` snapshot: an insertion-ordered association list.  The
program only ever builds dicts with unique keys (`to_dict` of a stored
document), and every operation below preserves key uniqueness. -/
abbrev Doc := List (String × JsonValue)

/-- Python `key in dict`. -/
def Doc.hasKey (d : Doc) (k : String) : Bool := d.any (fun p => p.1 == k)

/-- Python `dict[key]`; `none` when the key is absent (a `KeyError` at the
call sites that subscript directly). -/
def Doc.get? (d : Doc) (k : String) : Option JsonValue :=
  match d with
  | [] => none
  | p :: rest => if p.1 == k then some p.2 else Doc.get? rest k

/-- Python `dict.pop(key, None)`: remove the key if present, keeping the
order of the remaining entries. -/
def Doc.pop (d : Doc) (k : String) : Doc :=
  match d with
  | [] => []
  | p :: rest => if p.1 == k then Doc.pop rest k else p :: Doc.pop rest k

/-- Python `dict[key] = v`: overwrite in place (keeping the key's position)
when present, append otherwise. -/
def Doc.set (d : Doc) (k : String) (v : JsonValue) : Doc :=
  match d with
  | [] => [(k, v)]
  | p :: rest => if p.1 == k then (k, v) :: rest else p :: Doc.set rest k v

/-! ### The embedded program

`function_app.py` reads its configuration from environment variables fixed
at startup; the three property names that the business logic uses are
modelled as a `Config` value threaded through the functions. -/

/-- The application settings `COSMOS_VECTOR_PROPERTY`,
`COSMOS_HASH_PROPERTY` and `COSMOS_PROPERTY_TO_EMBED`. -/
structure Config where
  vectorProp : String
  hashProp : String
  textProp : String
  deriving Repr, DecidableEq

/-- The six Cosmos DB system-metadata property names popped by
`cleanse_document_properties`. -/
def systemProps : List String := ["_rid", "_self", "_etag", "_attachments", "_lsn", "_ts"]

/-- `cleanse_document_properties`: pops the vector, hash and system
properties.  In Python this mutates the dict in place and returns the same
object; here the returned dict is that mutated value, and callers that
aliased the argument continue with this value. -/
def cleanse_document_properties (cfg : Config) (d : Doc) : Doc :=
  let d := d.pop cfg.vectorProp
  let d := d.pop cfg.hashProp
  let d := d.pop "_rid"
  let d := d.pop "_self"
  let d := d.pop "_etag"
  let d := d.pop "_attachments"
  let d := d.pop "_lsn"
  let d := d.pop "_ts"
  d

/-- `compute_json_hash`: cleanses the document (mutating it in place), reads
the property to embed and returns the lowercase-hex SHA-256 of its string
value.  The result pairs the digest with the document as mutated by the
cleanse; `none` models the uncaught `KeyError` when the property to embed is
absent (and the error from `property.encode()` when its value is not a
string). -/
def compute_json_hash (cfg : Config) (d : Doc) : Option (String × Doc) :=
  match (cleanse_document_properties cfg d).get? cfg.textProp with
  | some (JsonValue.str s) => some (sha256Hex s, cleanse_document_properties cfg d)
  | _ => none

/-- `is_document_new_or_modified`: returns `(True, new_hash)` when the
document has no hash property or its stored hash differs from the freshly
computed one, and `(False, "")` otherwise.  The third component is the
document as mutated in place by the cleanse inside `compute_json_hash`;
`none` models an uncaught exception. -/
def is_document_new_or_modified (cfg : Config) (d : Doc) : Option (Bool × String × Doc) :=
  if ! d.hasKey cfg.hashProp then
    (compute_json_hash cfg d).map (fun r => (true, r.1, r.2))
  else
    match d.get? cfg.hashProp with
    | none => none
    | some existing_hash =>
      (compute_json_hash cfg d).bind (fun r =>
        if JsonValue.str r.1 != existing_hash then some (true, r.1, r.2)
        else some (false, "", r.2))

/-- The external embedding service: `none` models an exception raised by the
OpenAI client call (timeout, quota, malformed input); `some v` a successful
response whose extracted `data[0].embedding` is `v`. -/
def EmbedService : Type := String → Option JsonValue

/-- `get_embeddings`: calls the external Azure OpenAI service on the input
text and extracts the embedding from the response.  The service lives
outside this repository and is the oracle parameter `svc`; a raised
exception propagates. -/
def get_embeddings (svc : EmbedService) (input_text : String) : Option JsonValue :=
  svc input_text

/-- Body of the `for document in input` loop of `cosmos_embedding_generator`
for one document: `none` models an exception escaping the loop (`KeyError`
or an embedding-service failure), `some none` a document inspected and not
emitted, `some (some e)` a document emitted to the output binding as `e`.
Note that `json_document` after the classification call is the dict as
mutated in place by the cleanse. -/
def processDocument (cfg : Config) (svc : EmbedService) (document : Doc) :
    Option (Option Doc) :=
  match is_document_new_or_modified cfg document with
  | none => none
  | some (is_new, hash_value, json_document) =>
    if is_new then
      match json_document.get? cfg.textProp with
      | some (JsonValue.str s) =>
        match get_embeddings svc s with
        | none => none
        | some embeddings =>
          some (some ((json_document.set cfg.hashProp (JsonValue.str hash_value)).set
            cfg.vectorProp embeddings))
      | _ => none
    else
      some none

/-- `cosmos_embedding_generator`: iterates over the delivered batch and
emits each enriched document to the output binding.  The result collects the
emitted documents in order; `none` models an exception escaping the loop,
which aborts the remainder of the batch (the source has no exception
handling inside the loop).  An empty delivery is a no-op. -/
def cosmos_embedding_generator (cfg : Config) (svc : EmbedService) :
    List Doc → Option (List Doc)
  | [] => some []
  | document :: rest =>
    match processDocument cfg svc document with
    | none => none
    | some emitted =>
      match cosmos_embedding_generator cfg svc rest with
      | none => none
      | some out => some (emitted.toList ++ out)

/-- A concrete configuration for witnesses, matching the sample document of
the source's doc string. -/
def cfg0 : Config := ⟨"vector", "hash", "text"⟩

/-- A deployment-sane configuration: the text property is distinct from the
vector and hash properties and from every system property (otherwise the
cleanse step would pop the text to be embedded), and the vector and hash
properties are distinct from each other. -/
def Config.sane (cfg : Config) : Prop :=
  cfg.textProp ≠ cfg.vectorProp ∧ cfg.textProp ≠ cfg.hashProp ∧
    cfg.textProp ∉ systemProps ∧ cfg.vectorProp ≠ cfg.hashProp

instance (cfg : Config) : Decidable cfg.sane := by
  unfold Config.sane; infer_instance

/-- Popping one key leaves lookups of any other key unchanged. -/
theorem Doc.get?_pop_ne (d : Doc) (k j : String) (h : k ≠ j) :
    (d.pop j).get? k = d.get? k := by
  induction d with
  | nil => rfl
  | cons p rest ih =>
    by_cases hp : p.1 = j
    · simp [Doc.pop, Doc.get?, hp, ih, Ne.symm h]
    · simp [Doc.pop, Doc.get?, hp, ih]

/-- Popping a key removes it. -/
theorem Doc.get?_pop_self (d : Doc) (k : String) : (d.pop k).get? k = none := by
  induction d with
  | nil => rfl
  | cons p rest ih =>
    by_cases hp : p.1 = k
    · simp [Doc.pop, hp, ih]
    · simp [Doc.pop, Doc.get?, hp, ih]

/-- A key that is absent stays absent after popping another key. -/
theorem Doc.get?_pop_none (d : Doc) (k j : String) (h : d.get? k = none) :
    (d.pop j).get? k = none := by
  by_cases hkj : k = j
  · subst hkj; exact Doc.get?_pop_self d k
  · rw [Doc.get?_pop_ne d k j hkj]; exact h

/-- Membership agrees with lookup. -/
theorem Doc.hasKey_eq_isSome (d : Doc) (k : String) :
    d.hasKey k = (d.get? k).isSome := by
  induction d with
  | nil => rfl
  | cons p rest ih =>
    by_cases hp : p.1 = k
    · simp [Doc.hasKey, Doc.get?, hp]
    · have hb : (p.1 == k) = false := beq_eq_false_iff_ne.mpr hp
      simpa [Doc.hasKey, Doc.get?, hp, hb] using ih

/-- Setting a key makes it present with the written value. -/
theorem Doc.get?_set_self (d : Doc) (k : String) (v : JsonValue) :
    (d.set k v).get? k = some v := by
  induction d with
  | nil => simp [Doc.set, Doc.get?]
  | cons p rest ih =>
    by_cases hp : p.1 = k
    · simp [Doc.set, Doc.get?, hp]
    · simp [Doc.set, Doc.get?, hp, ih]

/-- Setting one key leaves lookups of any other key unchanged. -/
theorem Doc.get?_set_ne (d : Doc) (k j : String) (v : JsonValue) (h : k ≠ j) :
    (d.set j v).get? k = d.get? k := by
  induction d with
  | nil => simp [Doc.set, Doc.get?, Ne.symm h]
  | cons p rest ih =>
    by_cases hp : p.1 = j
    · simp [Doc.set, Doc.get?, hp, Ne.symm h]
    · simp [Doc.set, Doc.get?, hp, ih]

/-- Cleansing leaves every key other than the popped ones unchanged. -/
theorem get?_cleanse (cfg : Config) (d : Doc) (k : String)
    (hv : k ≠ cfg.vectorProp) (hh : k ≠ cfg.hashProp) (hs : k ∉ systemProps) :
    (cleanse_document_properties cfg d).get? k = d.get? k := by
  simp only [systemProps, List.mem_cons, not_or] at hs
  obtain ⟨h1, h2, h3, h4, h5, h6, -⟩ := hs
  unfold cleanse_document_properties
  rw [Doc.get?_pop_ne _ _ _ h6, Doc.get?_pop_ne _ _ _ h5, Doc.get?_pop_ne _ _ _ h4,
    Doc.get?_pop_ne _ _ _ h3, Doc.get?_pop_ne _ _ _ h2, Doc.get?_pop_ne _ _ _ h1,
    Doc.get?_pop_ne _ _ _ hh, Doc.get?_pop_ne _ _ _ hv]

/-- Cleansing removes every system-metadata key. -/
theorem get?_cleanse_system (cfg : Config) (d : Doc) (k : String)
    (hs : k ∈ systemProps) :
    (cleanse_document_properties cfg d).get? k = none := by
  simp only [systemProps, List.mem_cons, List.not_mem_nil, or_false] at hs
  unfold cleanse_document_properties
  rcases hs with h | h | h | h | h | h <;> subst h
  · exact Doc.get?_pop_none _ _ _ (Doc.get?_pop_none _ _ _ (Doc.get?_pop_none _ _ _
      (Doc.get?_pop_none _ _ _ (Doc.get?_pop_none _ _ _ (Doc.get?_pop_self _ _)))))
  · exact Doc.get?_pop_none _ _ _ (Doc.get?_pop_none _ _ _ (Doc.get?_pop_none _ _ _
      (Doc.get?_pop_none _ _ _ (Doc.get?_pop_self _ _))))
  · exact Doc.get?_pop_none _ _ _ (Doc.get?_pop_none _ _ _ (Doc.get?_pop_none _ _ _
      (Doc.get?_pop_self _ _)))
  · exact Doc.get?_pop_none _ _ _ (Doc.get?_pop_none _ _ _ (Doc.get?_pop_self _ _))
  · exact Doc.get?_pop_none _ _ _ (Doc.get?_pop_self _ _)
  · exact Doc.get?_pop_self _ _

/-- Cleansing removes the vector key. -/
theorem get?_cleanse_vector (cfg : Config) (d : Doc)
    (hs : cfg.vectorProp ∉ systemProps) (hvh : cfg.vectorProp ≠ cfg.hashProp) :
    (cleanse_document_properties cfg d).get? cfg.vectorProp = none := by
  simp only [systemProps, List.mem_cons, not_or] at hs
  obtain ⟨h1, h2, h3, h4, h5, h6, -⟩ := hs
  unfold cleanse_document_properties
  rw [Doc.get?_pop_ne _ _ _ h6, Doc.get?_pop_ne _ _ _ h5, Doc.get?_pop_ne _ _ _ h4,
    Doc.get?_pop_ne _ _ _ h3, Doc.get?_pop_ne _ _ _ h2, Doc.get?_pop_ne _ _ _ h1,
    Doc.get?_pop_ne _ _ _ hvh, Doc.get?_pop_self]

/-- Cleansing removes the hash key. -/
theorem get?_cleanse_hash (cfg : Config) (d : Doc)
    (hs : cfg.hashProp ∉ systemProps) :
    (cleanse_document_properties cfg d).get? cfg.hashProp = none := by
  simp only [systemProps, List.mem_cons, not_or] at hs
  obtain ⟨h1, h2, h3, h4, h5, h6, -⟩ := hs
  unfold cleanse_document_properties
  rw [Doc.get?_pop_ne _ _ _ h6, Doc.get?_pop_ne _ _ _ h5, Doc.get?_pop_ne _ _ _ h4,
    Doc.get?_pop_ne _ _ _ h3, Doc.get?_pop_ne _ _ _ h2, Doc.get?_pop_ne _ _ _ h1,
    Doc.get?_pop_self]

/-- When the designated text property is present with a string value and its
name survives the cleanse, `compute_json_hash` returns the SHA-256 hex
digest of that value together with the cleansed document. -/
theorem compute_json_hash_eq (cfg : Config) (d : Doc) (s : String)
    (hv : cfg.textProp ≠ cfg.vectorProp) (hh : cfg.textProp ≠ cfg.hashProp)
    (hs : cfg.textProp ∉ systemProps)
    (htext : d.get? cfg.textProp = some (JsonValue.str s)) :
    compute_json_hash cfg d = some (sha256Hex s, cleanse_document_properties cfg d) := by
  unfold compute_json_hash
  rw [get?_cleanse cfg d _ hv hh hs, htext]


/-- Inversion: a successful `compute_json_hash` always returns the digest of
the cleansed document's text property together with the cleansed document. -/
theorem compute_json_hash_inv (cfg : Config) (d : Doc) (r : String × Doc)
    (h : compute_json_hash cfg d = some r) :
    ∃ s, (cleanse_document_properties cfg d).get? cfg.textProp = some (JsonValue.str s) ∧
      r = (sha256Hex s, cleanse_document_properties cfg d) := by
  unfold compute_json_hash at h
  rcases hg : (cleanse_document_properties cfg d).get? cfg.textProp with _ | v
  · rw [hg] at h; cases h
  · rw [hg] at h
    cases v with
    | str s => exact ⟨s, rfl, by cases h; rfl⟩
    | num n => cases h
    | boolean b => cases h
    | null => cases h
    | arr xs => cases h

/-- Classification of a document with no stored hash property. -/
theorem classify_no_hash (cfg : Config) (d : Doc) (s : String)
    (hv : cfg.textProp ≠ cfg.vectorProp) (hh : cfg.textProp ≠ cfg.hashProp)
    (hs : cfg.textProp ∉ systemProps)
    (hnk : d.hasKey cfg.hashProp = false)
    (htext : d.get? cfg.textProp = some (JsonValue.str s)) :
    is_document_new_or_modified cfg d =
      some (true, sha256Hex s, cleanse_document_properties cfg d) := by
  unfold is_document_new_or_modified
  rw [hnk, compute_json_hash_eq cfg d s hv hh hs htext]
  rfl

/-- Classification of a document whose stored hash matches the fresh
digest. -/
theorem classify_hash_match (cfg : Config) (d : Doc) (s : String)
    (hv : cfg.textProp ≠ cfg.vectorProp) (hh : cfg.textProp ≠ cfg.hashProp)
    (hs : cfg.textProp ∉ systemProps)
    (hhash : d.get? cfg.hashProp = some (JsonValue.str (sha256Hex s)))
    (htext : d.get? cfg.textProp = some (JsonValue.str s)) :
    is_document_new_or_modified cfg d =
      some (false, "", cleanse_document_properties cfg d) := by
  have hk : d.hasKey cfg.hashProp = true := by rw [Doc.hasKey_eq_isSome, hhash]; rfl
  unfold is_document_new_or_modified
  rw [hk, hhash, compute_json_hash_eq cfg d s hv hh hs htext]
  simp

/-- Classification of a document whose stored hash differs from the fresh
digest. -/
theorem classify_hash_diff (cfg : Config) (d : Doc) (s : String) (ex : JsonValue)
    (hv : cfg.textProp ≠ cfg.vectorProp) (hh : cfg.textProp ≠ cfg.hashProp)
    (hs : cfg.textProp ∉ systemProps)
    (hhash : d.get? cfg.hashProp = some ex)
    (hne : ex ≠ JsonValue.str (sha256Hex s))
    (htext : d.get? cfg.textProp = some (JsonValue.str s)) :
    is_document_new_or_modified cfg d =
      some (true, sha256Hex s, cleanse_document_properties cfg d) := by
  have hk : d.hasKey cfg.hashProp = true := by rw [Doc.hasKey_eq_isSome, hhash]; rfl
  unfold is_document_new_or_modified
  rw [hk, hhash, compute_json_hash_eq cfg d s hv hh hs htext]
  simp [Ne.symm hne]

/-- Inversion: any successful classification returns the cleansed document,
whose text property holds the hashed string, and on the `true` flag the
returned hash is that string's digest while on `false` it is `""`. -/
theorem classify_inv (cfg : Config) (d : Doc) (b : Bool) (hv : String) (dm : Doc)
    (h : is_document_new_or_modified cfg d = some (b, hv, dm)) :
    dm = cleanse_document_properties cfg d ∧
      ∃ s, dm.get? cfg.textProp = some (JsonValue.str s) ∧
        (b = true → hv = sha256Hex s) ∧ (b = false → hv = "") := by
  unfold is_document_new_or_modified at h
  split at h
  · rcases hc : compute_json_hash cfg d with _ | r
    · rw [hc] at h; cases h
    · rw [hc] at h
      obtain ⟨s, hts, hr⟩ := compute_json_hash_inv cfg d r hc
      subst hr
      cases h
      exact ⟨rfl, s, hts, fun _ => rfl, by simp⟩
  · split at h
    · cases h
    · rcases hc : compute_json_hash cfg d with _ | r
      · rw [hc] at h; cases h
      · rw [hc] at h
        obtain ⟨s, hts, hr⟩ := compute_json_hash_inv cfg d r hc
        subst hr
        simp only [Option.bind] at h
        split at h
        · cases h
          exact ⟨rfl, s, hts, fun _ => rfl, by simp⟩
        · cases h
          exact ⟨rfl, s, hts, by simp, fun _ => rfl⟩

/-- A document flagged for embedding is enriched and emitted when the
service succeeds and aborts the loop when it fails. -/
theorem processDocument_flagged (cfg : Config) (svc : EmbedService) (d dm : Doc)
    (hv : String) (s : String)
    (hcl : is_document_new_or_modified cfg d = some (true, hv, dm))
    (htext : dm.get? cfg.textProp = some (JsonValue.str s)) :
    processDocument cfg svc d =
      match svc s with
      | none => none
      | some vec =>
        some (some ((dm.set cfg.hashProp (JsonValue.str hv)).set cfg.vectorProp vec)) := by
  unfold processDocument
  rw [hcl]
  rcases hsvc : svc s with _ | vec <;> simp [htext, get_embeddings, hsvc]

/-- A document classified as unchanged is not embedded and not emitted. -/
theorem processDocument_unflagged (cfg : Config) (svc : EmbedService) (d dm : Doc)
    (hv : String)
    (hcl : is_document_new_or_modified cfg d = some (false, hv, dm)) :
    processDocument cfg svc d = some none := by
  unfold processDocument
  rw [hcl]
  rfl

/-- Inversion: an emitted document arises exactly from a successful
classification with the `true` flag, a text string `s` in the cleansed
document, and a successful embedding call on `s`; the emitted value is the
cleansed document with the digest and the vector written. -/
theorem processDocument_emit_inv (cfg : Config) (svc : EmbedService) (d e : Doc)
    (h : processDocument cfg svc d = some (some e)) :
    ∃ s vec,
      (cleanse_document_properties cfg d).get? cfg.textProp = some (JsonValue.str s) ∧
      svc s = some vec ∧
      e = ((cleanse_document_properties cfg d).set cfg.hashProp
            (JsonValue.str (sha256Hex s))).set cfg.vectorProp vec := by
  rcases hcl : is_document_new_or_modified cfg d with _ | ⟨b, hv, dm⟩
  · rw [processDocument, hcl] at h; cases h
  · obtain ⟨hdm, s, hts, hhv, -⟩ := classify_inv cfg d b hv dm hcl
    subst hdm
    cases b
    · rw [processDocument_unflagged cfg svc d _ hv hcl] at h; cases h
    · have hfl := processDocument_flagged cfg svc d _ hv s hcl hts
      rcases hsvc : svc s with _ | vec
      · rw [hsvc] at hfl
        rw [hfl] at h
        cases h
      · rw [hsvc] at hfl
        rw [hfl] at h
        cases h
        exact ⟨s, vec, hts, hsvc, by rw [hhv rfl]⟩

/-- When the cleansed document's text property is absent or not a string,
`compute_json_hash` raises (`none`). -/
theorem compute_json_hash_none (cfg : Config) (d : Doc)
    (hv : cfg.textProp ≠ cfg.vectorProp) (hh : cfg.textProp ≠ cfg.hashProp)
    (hs : cfg.textProp ∉ systemProps)
    (ht : ∀ s, d.get? cfg.textProp ≠ some (JsonValue.str s)) :
    compute_json_hash cfg d = none := by
  unfold compute_json_hash
  rw [get?_cleanse cfg d _ hv hh hs]
  rcases hg : d.get? cfg.textProp with _ | v
  · rfl
  · cases v with
    | str s => exact absurd hg (ht s)
    | num n => rfl
    | boolean b => rfl
    | null => rfl
    | arr xs => rfl

/-- A failing `compute_json_hash` makes the whole classification raise. -/
theorem classify_none_of_compute_none (cfg : Config) (d : Doc)
    (hc : compute_json_hash cfg d = none) :
    is_document_new_or_modified cfg d = none := by
  unfold is_document_new_or_modified
  split
  · rw [hc]; rfl
  · split
    · rfl
    · rw [hc]; rfl

/-- The classification pair `(must_embed, hash)` is a function of just the
text property's value and the stored hash value of the snapshot. -/
theorem classify_pair (cfg : Config) (d : Doc)
    (hv : cfg.textProp ≠ cfg.vectorProp) (hh : cfg.textProp ≠ cfg.hashProp)
    (hs : cfg.textProp ∉ systemProps) :
    (is_document_new_or_modified cfg d).map (fun r => (r.1, r.2.1)) =
      match d.get? cfg.textProp, d.get? cfg.hashProp with
      | some (JsonValue.str s), none => some (true, sha256Hex s)
      | some (JsonValue.str s), some ex =>
          if ex = JsonValue.str (sha256Hex s) then some (false, "")
          else some (true, sha256Hex s)
      | _, _ => none := by
  have hnonstr : (∀ s, d.get? cfg.textProp ≠ some (JsonValue.str s)) →
      (is_document_new_or_modified cfg d).map (fun r => (r.1, r.2.1)) = none := by
    intro hns
    rw [classify_none_of_compute_none cfg d (compute_json_hash_none cfg d hv hh hs hns)]
    rfl
  rcases ht : d.get? cfg.textProp with _ | v
  · rw [hnonstr (by simp [ht])]
  · cases v with
    | str s =>
      rcases hg : d.get? cfg.hashProp with _ | ex
      · have hk : d.hasKey cfg.hashProp = false := by rw [Doc.hasKey_eq_isSome, hg]; rfl
        rw [classify_no_hash cfg d s hv hh hs hk ht]
        rfl
      · by_cases hex : ex = JsonValue.str (sha256Hex s)
        · subst hex
          rw [classify_hash_match cfg d s hv hh hs hg ht]
          simp
        · rw [classify_hash_diff cfg d s ex hv hh hs hg hex ht]
          simp [hex]
    | num n => rw [hnonstr (by simp [ht])]
    | boolean b => rw [hnonstr (by simp [ht])]
    | null => rw [hnonstr (by simp [ht])]
    | arr xs => rw [hnonstr (by simp [ht])]

/-- The characters of a `String.mk` are its construction list. -/
theorem stringLength_mk (l : List Char) : (String.mk l).length = l.length := rfl

/-- The digest has 32 bytes. -/
theorem sha256Bytes_length (m : List Nat) : (sha256Bytes m).length = 32 := by
  unfold sha256Bytes wordToBytes
  simp

/-- Hex encoding yields two characters per byte. -/
theorem hexdigest_length (bs : List Nat) : (hexdigest bs).length = 2 * bs.length := by
  unfold hexdigest
  rw [stringLength_mk]
  induction bs with
  | nil => rfl
  | cons b rest ih =>
    simp [byteToHex] at ih ⊢
    omega

/-- `List.getD` returns an element of the list or the default. -/
theorem getD_mem_or (l : List Char) (n : Nat) (d : Char) :
    l.getD n d ∈ l ∨ l.getD n d = d := by
  induction l generalizing n with
  | nil => exact Or.inr rfl
  | cons c rest ih =>
    cases n with
    | zero => exact Or.inl (List.mem_cons_self c rest)
    | succ m =>
      rcases ih m with h | h
      · exact Or.inl (List.mem_cons_of_mem _ h)
      · exact Or.inr h

/-- Every hex digit character is a lowercase hexadecimal character. -/
theorem hexDigit_mem (n : Nat) : hexDigit n ∈ hexChars := by
  rcases getD_mem_or hexChars n '0' with h | h
  · exact h
  · unfold hexDigit
    rw [h]
    decide

/-- The hex digest is made of lowercase hexadecimal characters only. -/
theorem hexdigest_chars (bs : List Nat) : ∀ c ∈ (hexdigest bs).data, c ∈ hexChars := by
  intro c hc
  have hc' : c ∈ ((bs.map byteToHex).flatten) := hc
  rw [List.mem_flatten] at hc'
  obtain ⟨l, hl, hcl⟩ := hc'
  rw [List.mem_map] at hl
  obtain ⟨b, -, rfl⟩ := hl
  unfold byteToHex at hcl
  rw [List.mem_cons, List.mem_singleton] at hcl
  rcases hcl with rfl | rfl
  · exact hexDigit_mem _
  · exact hexDigit_mem _

/-- The canonical hash string has exactly 64 characters. -/
theorem sha256Hex_length (s : String) : (sha256Hex s).length = 64 := by
  unfold sha256Hex
  rw [hexdigest_length, sha256Bytes_length]

/-- The canonical hash string is lowercase hexadecimal. -/
theorem sha256Hex_chars (s : String) : ∀ c ∈ (sha256Hex s).data, c ∈ hexChars :=
  hexdigest_chars (sha256Bytes (utf8Bytes s))

/-- Sanity check of the SHA-256 model against the FIPS 180-4 test vector for
the empty message. -/
theorem sha256Hex_empty :
    sha256Hex "" = "e3b0c44298fc1c149afbf4c8996fb92427ae41e4649b934ca495991b7852b855" := by
  decide

/-- Sanity check of the SHA-256 model against the FIPS 180-4 test vector for
the message `abc`. -/
theorem sha256Hex_abc :
    sha256Hex "abc" = "ba7816bf8f01cfea414140de5dae2223b00361a396177a9cb410ff61f20015ad" := by
  decide

/-- C1: for every document carrying the designated text field, feeding the
output of the enrichment step (the document with the hash field set to the
freshly computed digest and the vector field set to the returned embedding)
back through the classifier yields `must_embed = false`, the text field's
value being unchanged.  The configuration hypotheses say the three
configured property names do not collide with each other or with the system
properties. -/
theorem claim1_no_feedback_loop (cfg : Config) (svc : EmbedService) (d e : Doc)
    (hv : cfg.textProp ≠ cfg.vectorProp) (hh : cfg.textProp ≠ cfg.hashProp)
    (hs : cfg.textProp ∉ systemProps) (hvh : cfg.vectorProp ≠ cfg.hashProp)
    (hemit : processDocument cfg svc d = some (some e)) :
    is_document_new_or_modified cfg e =
      some (false, "", cleanse_document_properties cfg e) := by
  obtain ⟨s, vec, hts, hsvc, he⟩ := processDocument_emit_inv cfg svc d e hemit
  subst he
  have ht : (((cleanse_document_properties cfg d).set cfg.hashProp
      (JsonValue.str (sha256Hex s))).set cfg.vectorProp vec).get? cfg.textProp =
      some (JsonValue.str s) := by
    rw [Doc.get?_set_ne _ _ _ _ hv, Doc.get?_set_ne _ _ _ _ hh]
    exact hts
  have hhash : (((cleanse_document_properties cfg d).set cfg.hashProp
      (JsonValue.str (sha256Hex s))).set cfg.vectorProp vec).get? cfg.hashProp =
      some (JsonValue.str (sha256Hex s)) := by
    rw [Doc.get?_set_ne _ _ _ _ (Ne.symm hvh)]
    exact Doc.get?_set_self _ _ _
  exact classify_hash_match cfg _ s hv hh hs hhash ht

/-- Witness for C1: a concrete document is enriched and the enriched output
classifies as unchanged. -/
theorem claim1_no_feedback_loop_witness :
    is_document_new_or_modified cfg0
        [("id", JsonValue.str "1"), ("text", JsonValue.str "A"),
         ("hash", JsonValue.str (sha256Hex "A")), ("vector", JsonValue.arr [1, 2])] =
      some (false, "", cleanse_document_properties cfg0
        [("id", JsonValue.str "1"), ("text", JsonValue.str "A"),
         ("hash", JsonValue.str (sha256Hex "A")), ("vector", JsonValue.arr [1, 2])]) :=
  claim1_no_feedback_loop cfg0 (fun _ => some (JsonValue.arr [1, 2]))
    [("id", JsonValue.str "1"), ("text", JsonValue.str "A")]
    [("id", JsonValue.str "1"), ("text", JsonValue.str "A"),
     ("hash", JsonValue.str (sha256Hex "A")), ("vector", JsonValue.arr [1, 2])]
    (by decide) (by decide) (by decide) (by decide) (by decide)

/-- C6: a document carrying no stored hash field always classifies as
`must_embed = true` with `new_hash` the freshly computed digest of the
hashing subject, the designated text field's string value. -/
theorem claim6_new_document_detection (cfg : Config) (d : Doc) (s : String)
    (hv : cfg.textProp ≠ cfg.vectorProp) (hh : cfg.textProp ≠ cfg.hashProp)
    (hs : cfg.textProp ∉ systemProps)
    (hnohash : d.hasKey cfg.hashProp = false)
    (htext : d.get? cfg.textProp = some (JsonValue.str s)) :
    is_document_new_or_modified cfg d =
      some (true, sha256Hex s, cleanse_document_properties cfg d) :=
  classify_no_hash cfg d s hv hh hs hnohash htext

/-- Witness for C6 at a concrete hashless document. -/
theorem claim6_new_document_detection_witness :
    is_document_new_or_modified cfg0
        [("id", JsonValue.str "1"), ("text", JsonValue.str "A")] =
      some (true, sha256Hex "A", cleanse_document_properties cfg0
        [("id", JsonValue.str "1"), ("text", JsonValue.str "A")]) :=
  claim6_new_document_detection cfg0
    [("id", JsonValue.str "1"), ("text", JsonValue.str "A")] "A"
    (by decide) (by decide) (by decide) (by decide) (by decide)

/-- C7: any two documents that agree on the designated text field hash
identically, whatever their system metadata; consequently a write that
changed only system metadata on an enriched document (its stored hash
matching its text's digest) classifies as `must_embed = false`. -/
theorem claim7_metadata_insensitivity (cfg : Config) (d1 d2 : Doc) (s : String)
    (hv : cfg.textProp ≠ cfg.vectorProp) (hh : cfg.textProp ≠ cfg.hashProp)
    (hs : cfg.textProp ∉ systemProps)
    (ht1 : d1.get? cfg.textProp = some (JsonValue.str s))
    (ht2 : d2.get? cfg.textProp = some (JsonValue.str s)) :
    (compute_json_hash cfg d1).map Prod.fst = (compute_json_hash cfg d2).map Prod.fst ∧
      (d2.get? cfg.hashProp = some (JsonValue.str (sha256Hex s)) →
        is_document_new_or_modified cfg d2 =
          some (false, "", cleanse_document_properties cfg d2)) := by
  constructor
  · rw [compute_json_hash_eq cfg d1 s hv hh hs ht1,
      compute_json_hash_eq cfg d2 s hv hh hs ht2]
    rfl
  · intro hhash
    exact classify_hash_match cfg d2 s hv hh hs hhash ht2

/-- Witness for C7: two documents with the same text but different system
metadata, the second one enriched. -/
theorem claim7_metadata_insensitivity_witness :
    (compute_json_hash cfg0 [("text", JsonValue.str "A"), ("_ts", JsonValue.num 1),
        ("_etag", JsonValue.str "x")]).map Prod.fst =
      (compute_json_hash cfg0 [("text", JsonValue.str "A"), ("_ts", JsonValue.num 2),
        ("_etag", JsonValue.str "y"),
        ("hash", JsonValue.str (sha256Hex "A"))]).map Prod.fst ∧
    ((Doc.get? [("text", JsonValue.str "A"), ("_ts", JsonValue.num 2),
        ("_etag", JsonValue.str "y"), ("hash", JsonValue.str (sha256Hex "A"))] "hash" =
          some (JsonValue.str (sha256Hex "A"))) →
      is_document_new_or_modified cfg0
          [("text", JsonValue.str "A"), ("_ts", JsonValue.num 2),
           ("_etag", JsonValue.str "y"), ("hash", JsonValue.str (sha256Hex "A"))] =
        some (false, "", cleanse_document_properties cfg0
          [("text", JsonValue.str "A"), ("_ts", JsonValue.num 2),
           ("_etag", JsonValue.str "y"), ("hash", JsonValue.str (sha256Hex "A"))])) :=
  claim7_metadata_insensitivity cfg0
    [("text", JsonValue.str "A"), ("_ts", JsonValue.num 1), ("_etag", JsonValue.str "x")]
    [("text", JsonValue.str "A"), ("_ts", JsonValue.num 2), ("_etag", JsonValue.str "y"),
     ("hash", JsonValue.str (sha256Hex "A"))] "A"
    (by decide) (by decide) (by decide) (by decide) (by decide)

/-- C10: a document whose stored hash equals the freshly computed digest
classifies as `must_embed = false` paired with the empty string as the hash
value, not the recomputed digest. -/
theorem claim10_unchanged_yields_empty_hash (cfg : Config) (d : Doc) (s : String)
    (hv : cfg.textProp ≠ cfg.vectorProp) (hh : cfg.textProp ≠ cfg.hashProp)
    (hs : cfg.textProp ∉ systemProps)
    (hhash : d.get? cfg.hashProp = some (JsonValue.str (sha256Hex s)))
    (htext : d.get? cfg.textProp = some (JsonValue.str s)) :
    is_document_new_or_modified cfg d =
      some (false, "", cleanse_document_properties cfg d) :=
  classify_hash_match cfg d s hv hh hs hhash htext

/-- Witness for C10 at a concrete up-to-date document. -/
theorem claim10_unchanged_yields_empty_hash_witness :
    is_document_new_or_modified cfg0
        [("text", JsonValue.str "A"), ("hash", JsonValue.str (sha256Hex "A"))] =
      some (false, "", cleanse_document_properties cfg0
        [("text", JsonValue.str "A"), ("hash", JsonValue.str (sha256Hex "A"))]) :=
  claim10_unchanged_yields_empty_hash cfg0
    [("text", JsonValue.str "A"), ("hash", JsonValue.str (sha256Hex "A"))] "A"
    (by decide) (by decide) (by decide) (by decide) (by decide)

/-- C8: for every document carrying the designated text field as a string,
the canonical hash is the SHA-256 digest of that single field's raw string
value, encoded as 64 lowercase hexadecimal characters; and the
embedding-subject resolution uses the same single field, so an emitted
document's vector is the service's response on exactly that string. -/
theorem claim8_single_field_convention (cfg : Config) (svc : EmbedService)
    (d : Doc) (s : String)
    (hv : cfg.textProp ≠ cfg.vectorProp) (hh : cfg.textProp ≠ cfg.hashProp)
    (hs : cfg.textProp ∉ systemProps)
    (htext : d.get? cfg.textProp = some (JsonValue.str s)) :
    compute_json_hash cfg d = some (sha256Hex s, cleanse_document_properties cfg d) ∧
    (sha256Hex s).length = 64 ∧
    (∀ c ∈ (sha256Hex s).data, c ∈ hexChars) ∧
    (∀ e, processDocument cfg svc d = some (some e) →
      e.get? cfg.vectorProp = svc s) := by
  refine ⟨compute_json_hash_eq cfg d s hv hh hs htext, sha256Hex_length s,
    sha256Hex_chars s, ?_⟩
  intro e hemit
  obtain ⟨s2, vec, hts, hsvc, he⟩ := processDocument_emit_inv cfg svc d e hemit
  rw [get?_cleanse cfg d _ hv hh hs, htext] at hts
  cases hts
  subst he
  rw [Doc.get?_set_self]
  exact hsvc.symm

/-- Witness for C8 at a concrete document and service. -/
theorem claim8_single_field_convention_witness :
    compute_json_hash cfg0 [("text", JsonValue.str "A"), ("_ts", JsonValue.num 3)] =
      some (sha256Hex "A", cleanse_document_properties cfg0
        [("text", JsonValue.str "A"), ("_ts", JsonValue.num 3)]) ∧
    (sha256Hex "A").length = 64 ∧
    (∀ c ∈ (sha256Hex "A").data, c ∈ hexChars) ∧
    (∀ e, processDocument cfg0 (fun _ => some (JsonValue.arr [7]))
        [("text", JsonValue.str "A"), ("_ts", JsonValue.num 3)] = some (some e) →
      e.get? cfg0.vectorProp = some (JsonValue.arr [7])) :=
  claim8_single_field_convention cfg0 (fun _ => some (JsonValue.arr [7]))
    [("text", JsonValue.str "A"), ("_ts", JsonValue.num 3)] "A"
    (by decide) (by decide) (by decide) (by decide)

/-- C9: vector and hash are written as a pair: every emitted document
carries both the embedding returned by the service for its text and the
matching fresh digest of that text; and when the embedding call fails for a
document, that document is not emitted at all. -/
theorem claim9_vector_hash_atomic_pair (cfg : Config) (svc : EmbedService) (d : Doc)
    (hvh : cfg.vectorProp ≠ cfg.hashProp) :
    (∀ e, processDocument cfg svc d = some (some e) →
      ∃ s vec,
        (cleanse_document_properties cfg d).get? cfg.textProp = some (JsonValue.str s) ∧
        svc s = some vec ∧
        e.get? cfg.vectorProp = some vec ∧
        e.get? cfg.hashProp = some (JsonValue.str (sha256Hex s))) ∧
    (∀ s, (cleanse_document_properties cfg d).get? cfg.textProp = some (JsonValue.str s) →
      svc s = none → ∀ e, processDocument cfg svc d ≠ some (some e)) := by
  constructor
  · intro e hemit
    obtain ⟨s, vec, hts, hsvc, he⟩ := processDocument_emit_inv cfg svc d e hemit
    subst he
    refine ⟨s, vec, hts, hsvc, ?_, ?_⟩
    · rw [Doc.get?_set_self]
    · rw [Doc.get?_set_ne _ _ _ _ (Ne.symm hvh), Doc.get?_set_self]
  · intro s hts hnone e hemit
    obtain ⟨s2, vec, hts2, hsvc, -⟩ := processDocument_emit_inv cfg svc d e hemit
    rw [hts] at hts2
    cases hts2
    rw [hnone] at hsvc
    cases hsvc

/-- Witness for C9 at a concrete document whose embedding call fails: the
failure branch of the pair property applies non-vacuously. -/
theorem claim9_vector_hash_atomic_pair_witness :
    (∀ e, processDocument cfg0 (fun _ => none) [("text", JsonValue.str "A")] =
        some (some e) →
      ∃ s vec,
        (cleanse_document_properties cfg0 [("text", JsonValue.str "A")]).get?
            cfg0.textProp = some (JsonValue.str s) ∧
        (none : Option JsonValue) = some vec ∧
        e.get? cfg0.vectorProp = some vec ∧
        e.get? cfg0.hashProp = some (JsonValue.str (sha256Hex s))) ∧
    (∀ s, (cleanse_document_properties cfg0 [("text", JsonValue.str "A")]).get?
          cfg0.textProp = some (JsonValue.str s) →
      (none : Option JsonValue) = none → ∀ e,
        processDocument cfg0 (fun _ => none) [("text", JsonValue.str "A")] ≠
          some (some e)) :=
  claim9_vector_hash_atomic_pair cfg0 (fun _ => none) [("text", JsonValue.str "A")]
    (by decide)

/-- C4 counterexample: a delivered document carrying the system field `_ts`
is emitted without it, because the in-place cleanse popped the system
metadata before enrichment; this refutes the claim that every original
field, including system metadata, is present and unchanged in the emitted
document. -/
theorem claim4_counterexample :
    processDocument cfg0 (fun _ => some (JsonValue.arr [1]))
        [("id", JsonValue.str "1"), ("text", JsonValue.str "A"),
         ("_ts", JsonValue.num 5)] =
      some (some [("id", JsonValue.str "1"), ("text", JsonValue.str "A"),
        ("hash", JsonValue.str (sha256Hex "A")), ("vector", JsonValue.arr [1])]) ∧
    Doc.get? [("id", JsonValue.str "1"), ("text", JsonValue.str "A"),
        ("hash", JsonValue.str (sha256Hex "A")), ("vector", JsonValue.arr [1])]
      "_ts" = none := by
  decide

/-- C4 (amended): the emitted document equals the delivered document with
the vector and hash fields added or overwritten and the system metadata
fields (and any previous vector/hash entries) removed; every other original
field is unchanged. -/
theorem claim4_emitted_frame (cfg : Config) (svc : EmbedService) (d e : Doc)
    (hemit : processDocument cfg svc d = some (some e)) :
    (∀ k, k ∉ systemProps → k ≠ cfg.vectorProp → k ≠ cfg.hashProp →
      e.get? k = d.get? k) ∧
    (∀ k, k ∈ systemProps → k ≠ cfg.vectorProp → k ≠ cfg.hashProp →
      e.get? k = none) := by
  obtain ⟨s, vec, hts, hsvc, he⟩ := processDocument_emit_inv cfg svc d e hemit
  subst he
  constructor
  · intro k hks hkv hkh
    rw [Doc.get?_set_ne _ _ _ _ hkv, Doc.get?_set_ne _ _ _ _ hkh,
      get?_cleanse cfg d k hkv hkh hks]
  · intro k hks hkv hkh
    rw [Doc.get?_set_ne _ _ _ _ hkv, Doc.get?_set_ne _ _ _ _ hkh,
      get?_cleanse_system cfg d k hks]

/-- Witness for the amended C4 at a concrete emission. -/
theorem claim4_emitted_frame_witness :
    (∀ k, k ∉ systemProps → k ≠ cfg0.vectorProp → k ≠ cfg0.hashProp →
      Doc.get? [("id", JsonValue.str "1"), ("text", JsonValue.str "A"),
        ("hash", JsonValue.str (sha256Hex "A")), ("vector", JsonValue.arr [1])] k =
      Doc.get? [("id", JsonValue.str "1"), ("text", JsonValue.str "A"),
        ("_ts", JsonValue.num 5)] k) ∧
    (∀ k, k ∈ systemProps → k ≠ cfg0.vectorProp → k ≠ cfg0.hashProp →
      Doc.get? [("id", JsonValue.str "1"), ("text", JsonValue.str "A"),
        ("hash", JsonValue.str (sha256Hex "A")), ("vector", JsonValue.arr [1])] k =
      none) :=
  claim4_emitted_frame cfg0 (fun _ => some (JsonValue.arr [1]))
    [("id", JsonValue.str "1"), ("text", JsonValue.str "A"), ("_ts", JsonValue.num 5)]
    [("id", JsonValue.str "1"), ("text", JsonValue.str "A"),
     ("hash", JsonValue.str (sha256Hex "A")), ("vector", JsonValue.arr [1])]
    (by decide)

/-- C5 counterexample: `is_document_new_or_modified` mutates its argument
in place (the cleanse pops the stored hash, vector and system fields), so
applying it twice to the same dict is not repeatable: the first application
on an up-to-date document returns `(False, "")` and strips the hash; the
second application, on the dict as the first left it, returns
`(True, digest)`. -/
theorem claim5_counterexample :
    is_document_new_or_modified cfg0
        [("text", JsonValue.str "A"), ("hash", JsonValue.str (sha256Hex "A"))] =
      some (false, "", [("text", JsonValue.str "A")]) ∧
    is_document_new_or_modified cfg0 [("text", JsonValue.str "A")] =
      some (true, sha256Hex "A", [("text", JsonValue.str "A")]) := by
  decide

/-- C5 (amended): the classification pair `(must_embed, hash)` is a
deterministic function of the snapshot's text and stored-hash values alone
— system-metadata churn and vector contents do not affect it — so
redelivery, which presents a fresh snapshot of the stored document,
recomputes `must_embed` identically; the call itself is not
side-effect-free, since it strips the vector, hash and system fields from
the in-memory snapshot. -/
theorem claim5_classify_repeatable (cfg : Config) (d1 d2 : Doc)
    (hv : cfg.textProp ≠ cfg.vectorProp) (hh : cfg.textProp ≠ cfg.hashProp)
    (hs : cfg.textProp ∉ systemProps)
    (htext : d1.get? cfg.textProp = d2.get? cfg.textProp)
    (hhash : d1.get? cfg.hashProp = d2.get? cfg.hashProp) :
    (is_document_new_or_modified cfg d1).map (fun r => (r.1, r.2.1)) =
      (is_document_new_or_modified cfg d2).map (fun r => (r.1, r.2.1)) := by
  rw [classify_pair cfg d1 hv hh hs, classify_pair cfg d2 hv hh hs, htext, hhash]

/-- Witness for the amended C5: fresh snapshots differing only in system
metadata classify identically. -/
theorem claim5_classify_repeatable_witness :
    (is_document_new_or_modified cfg0
        [("text", JsonValue.str "A"), ("_ts", JsonValue.num 1)]).map
        (fun r => (r.1, r.2.1)) =
      (is_document_new_or_modified cfg0
        [("_etag", JsonValue.str "x"), ("text", JsonValue.str "A"),
         ("_ts", JsonValue.num 2)]).map (fun r => (r.1, r.2.1)) :=
  claim5_classify_repeatable cfg0
    [("text", JsonValue.str "A"), ("_ts", JsonValue.num 1)]
    [("_etag", JsonValue.str "x"), ("text", JsonValue.str "A"), ("_ts", JsonValue.num 2)]
    (by decide) (by decide) (by decide) (by decide) (by decide)

/-- C2: the code contradicts the claim that a flagged document lacking the
designated text field is skipped without crashing the batch.  On a batch
whose first document has no text property, the `KeyError` raised inside
`compute_json_hash` escapes the loop and nothing at all is emitted; the
sibling document alone would have been enriched and emitted. -/
theorem claim2_missing_field_aborts_batch :
    cosmos_embedding_generator cfg0 (fun _ => some (JsonValue.arr [1]))
        [[("id", JsonValue.str "1")],
         [("id", JsonValue.str "2"), ("text", JsonValue.str "B")]] = none ∧
    cosmos_embedding_generator cfg0 (fun _ => some (JsonValue.arr [1]))
        [[("id", JsonValue.str "2"), ("text", JsonValue.str "B")]] =
      some [[("id", JsonValue.str "2"), ("text", JsonValue.str "B"),
        ("hash", JsonValue.str (sha256Hex "B")), ("vector", JsonValue.arr [1])]] := by
  decide

/-- C3: the code contradicts the claim that one document's
embedding-service failure leaves its batch siblings unaffected.  With a
service that fails on the first document's text, the exception escapes the
loop and nothing is emitted; the sibling alone would have been enriched and
emitted. -/
theorem claim3_embedding_failure_aborts_batch :
    cosmos_embedding_generator cfg0
        (fun s => if s = "A" then none else some (JsonValue.arr [1]))
        [[("id", JsonValue.str "1"), ("text", JsonValue.str "A")],
         [("id", JsonValue.str "2"), ("text", JsonValue.str "B")]] = none ∧
    cosmos_embedding_generator cfg0
        (fun s => if s = "A" then none else some (JsonValue.arr [1]))
        [[("id", JsonValue.str "2"), ("text", JsonValue.str "B")]] =
      some [[("id", JsonValue.str "2"), ("text", JsonValue.str "B"),
        ("hash", JsonValue.str (sha256Hex "B")), ("vector", JsonValue.arr [1])]] := by
  decide

end CosmosEmbed
